import Mathlib

/-!
Verification development for the rate-limiting / backoff / retry core of the
agent-responsive-digital-twin repository.

The definitions below are shallow embeddings of the TypeScript source:
* `src/packages/frontend/lib/ai.ts` — the fixed-window rate limiter
  (`checkRateLimit`), its constants, and the in-process fallback store
  (`createMockRedisClient` with `incr`, `expire`, `ttl`).
* `src/packages/frontend/lib/api.ts` — the retrying HTTP executor
  (`apiClient.request`) and the health probe (`apiClient.isBackendAvailable`).
* `src/packages/frontend/lib/BackendContext.tsx` — the availability monitor
  state update (`checkBackend`).

Conventions: timestamps are milliseconds since epoch as `Nat` (the value of
`Date.now()`); TTL results are `Int` because the store uses the sentinels
`-1` (no TTL) and `-2` (no such key); fallible store operations return
`Except String` to model a thrown exception; JavaScript truthiness of the
expression `!expiration` is modelled explicitly (both `undefined` and `0`
are falsy).
-/

/-- Rate limiter constant `RATE_LIMIT = 10` (ai.ts line 335). -/
def RATE_LIMIT : Nat := 10

/-- Rate limiter constant `RATE_LIMIT_WINDOW_SEC = 60` (ai.ts line 336). -/
def RATE_LIMIT_WINDOW_SEC : Nat := 60

/-- The result record of `checkRateLimit` (ai.ts lines 376-389). -/
structure Decision where
  allowed : Bool
  remaining : Int
  limit : Nat
  reset : Int
deriving DecidableEq, Repr

/-- State of the in-process fallback store `createMockRedisClient`
(ai.ts lines 261-266): a storage map and an expirations map, both keyed by
string.  Absent entries are `none`.  Expiration entries are absolute
timestamps in milliseconds. -/
structure MockRedis where
  storage : String → Option Nat
  expirations : String → Option Nat

/-- `incr` of the mock client (ai.ts lines 268-274): reads the current value
(defaulting to 0), stores current + 1, and returns the post-increment value.
It never consults the expirations map. -/
def mockIncr (st : MockRedis) (key : String) : Nat × MockRedis :=
  let currentValue := (st.storage key).getD 0
  let newValue := currentValue + 1
  (newValue,
    { st with storage := fun k => if k = key then some newValue else st.storage k })

/-- `expire` of the mock client (ai.ts lines 276-283): returns 0 if the key
is absent from storage, otherwise records `now + seconds * 1000` as the
expiration and returns 1. -/
def mockExpire (st : MockRedis) (now : Nat) (key : String) (seconds : Nat) :
    Nat × MockRedis :=
  if (st.storage key).isSome then
    (1, { st with
            expirations := fun k =>
              if k = key then some (now + seconds * 1000) else st.expirations k })
  else (0, st)

/-- `ttl` of the mock client (ai.ts lines 285-301): `-2` when the key is not
in storage; `-1` when it has no recorded expiration (the JavaScript test
`!expiration` is also true for a recorded expiration of `0`, modelled by the
explicit `expiration = 0` branch); when the recorded expiration has passed,
the key and its expiration are deleted and `-2` is returned; otherwise the
remaining time is returned, rounded up to whole seconds. -/
def mockTtl (st : MockRedis) (now : Nat) (key : String) : Int × MockRedis :=
  match st.storage key with
  | none => (-2, st)
  | some _ =>
    match st.expirations key with
    | none => (-1, st)
    | some expiration =>
      if expiration = 0 then (-1, st)
      else if expiration ≤ now then
        (-2, { storage := fun k => if k = key then none else st.storage k,
               expirations := fun k => if k = key then none else st.expirations k })
      else ((((expiration - now) + 999) / 1000 : Nat), st)

/-- The store interface used by `checkRateLimit`: the three operations the
limiter invokes on the client returned by `getRedisClient`.  Each operation
may throw (`Except.error`), and threads a store state of type `σ`.  The
`now` argument stands for the implicit `Date.now()` reads inside the mock
operations. -/
structure RedisClient (σ : Type) where
  incr : σ → String → Except String Nat × σ
  expire : σ → Nat → String → Nat → Except String Nat × σ
  ttl : σ → Nat → String → Except String Int × σ

/-- The in-process fallback store packaged as a `RedisClient`; its
operations never throw. -/
def mockRedisClient : RedisClient MockRedis where
  incr := fun st key =>
    let r := mockIncr st key
    (Except.ok r.1, r.2)
  expire := fun st now key seconds =>
    let r := mockExpire st now key seconds
    (Except.ok r.1, r.2)
  ttl := fun st now key =>
    let r := mockTtl st now key
    (Except.ok r.1, r.2)

/-- The key used by the rate limiter for an identity:
the template string `ratelimit:identifier` (ai.ts line 352). -/
def rlKey (identifier : String) : String := "ratelimit:" ++ identifier

/-- The decision built at the end of a successful `checkRateLimit` run
(ai.ts lines 371-389): `resetTimestamp = ceil(now / 1000) + ttl`; if the
post-increment count exceeds the limit the request is denied with
`remaining = 0`, otherwise it is allowed with
`remaining = limit - count`. -/
def mkDecision (incrResult : Nat) (ttlVal : Int) (now : Nat) : Decision :=
  let resetTimestamp : Int := ((now + 999) / 1000 : Nat) + ttlVal
  if incrResult > RATE_LIMIT then
    { allowed := false, remaining := 0, limit := RATE_LIMIT, reset := resetTimestamp }
  else
    { allowed := true, remaining := (RATE_LIMIT : Int) - (incrResult : Int),
      limit := RATE_LIMIT, reset := resetTimestamp }

/-- The fail-open decision returned from the catch block of `checkRateLimit`
(ai.ts line 394): allowed, `remaining = RATE_LIMIT - 1`, reset one full
window ahead of now. -/
def failOpenDecision (now : Nat) : Decision :=
  { allowed := true, remaining := (RATE_LIMIT : Int) - 1, limit := RATE_LIMIT,
    reset := (((now + 999) / 1000 : Nat) : Int) + (RATE_LIMIT_WINDOW_SEC : Int) }

/-- `checkRateLimit` (ai.ts lines 342-396), generic over the store client.
The operations run in source order: `incr`, then `ttl`, then — when the
counter is newly created or carries no TTL — a defensive `expire`.  Any
operation that throws is caught by the surrounding try/catch and produces
the fail-open decision; the state produced so far is kept. -/
def checkRateLimit {σ : Type} (c : RedisClient σ) (st : σ) (now : Nat)
    (identifier : String) : Decision × σ :=
  let key := rlKey identifier
  match c.incr st key with
  | (Except.error _, st1) => (failOpenDecision now, st1)
  | (Except.ok incrResult, st1) =>
    match c.ttl st1 now key with
    | (Except.error _, st2) => (failOpenDecision now, st2)
    | (Except.ok ttlVal, st2) =>
      if incrResult = 1 then
        match c.expire st2 now key RATE_LIMIT_WINDOW_SEC with
        | (Except.error _, st3) => (failOpenDecision now, st3)
        | (Except.ok _, st3) =>
          (mkDecision incrResult (RATE_LIMIT_WINDOW_SEC : Int) now, st3)
      else if ttlVal = -1 then
        match c.expire st2 now key RATE_LIMIT_WINDOW_SEC with
        | (Except.error _, st3) => (failOpenDecision now, st3)
        | (Except.ok _, st3) =>
          (mkDecision incrResult (RATE_LIMIT_WINDOW_SEC : Int) now, st3)
      else (mkDecision incrResult ttlVal now, st2)

/-- The empty fallback store: no keys, no expirations. -/
def emptyMockRedis : MockRedis :=
  { storage := fun _ => none, expirations := fun _ => none }

/-- The fallback-store state after `k` successive `checkRateLimit` calls for
identity `id`, the `j`-th call (0-indexed) occurring at time `ts j`
(milliseconds), starting from the empty store. -/
def runCalls (id : String) (ts : Nat → Nat) : Nat → MockRedis
  | 0 => emptyMockRedis
  | k + 1 => (checkRateLimit mockRedisClient (runCalls id ts k) (ts k) id).2

/-- The decision returned by the `(k+1)`-th `checkRateLimit` call of such a
sequence. -/
def nthDecision (id : String) (ts : Nat → Nat) (k : Nat) : Decision :=
  (checkRateLimit mockRedisClient (runCalls id ts k) (ts k) id).1

/-- Running `k` calls of the mock `incr` in sequence on the same key,
collecting each post-increment result (models `k` concurrent `incr` calls:
on the event loop, tasks interleave only at await points, and the body of
the mock `incr` contains none, so each call executes as one atomic step and
a concurrent execution is a serial run of the `k` increments). -/
def runIncrs (st : MockRedis) (key : String) : Nat → List Nat × MockRedis
  | 0 => ([], st)
  | k + 1 =>
    let r := mockIncr st key
    let rest := runIncrs r.2 key k
    (r.1 :: rest.1, rest.2)

/-- Retry constant `MAX_RETRIES = 2` (api.ts line 11). -/
def MAX_RETRIES : Nat := 2

/-- Retry constant `RETRY_DELAY = 1000` milliseconds (api.ts line 12). -/
def RETRY_DELAY : Nat := 1000

/-- The delay the executor waits before its next attempt after the iteration
with counter `retries`: `RETRY_DELAY * (retries + 1)` (api.ts line 76). -/
def apiRetryDelay (retries : Nat) : Nat := RETRY_DELAY * (retries + 1)

/-- The poll interval the availability monitor computes in its catch branch
after `nextFailure` consecutive failures:
`Math.min(checkInterval * Math.pow(2, nextFailure), 300000)`
(BackendContext.tsx lines 71-74). -/
def backendRetryTimeout (checkInterval nextFailure : Nat) : Nat :=
  min (checkInterval * 2 ^ nextFailure) 300000

/-- An axios response as seen by the retry loop: its status and the
`message` / `error` fields of its body (the empty string models an absent
field, which is falsy in JavaScript). -/
structure AxResponse where
  status : Nat
  dataMessage : String
  dataError : String
deriving DecidableEq, Repr

/-- An error thrown by an attempt: an optional response (absent on a
network-level failure), an error code (the empty string models an absent
code; axios timeouts carry the code ECONNABORTED), and a message. -/
structure AxError where
  response : Option AxResponse
  code : String
  message : String
deriving DecidableEq, Repr

/-- The outcome of one HTTP attempt: a resolved response body, or a thrown
error. -/
inductive Attempt where
  | ok (body : String)
  | err (e : AxError)
deriving DecidableEq, Repr

/-- The retry classification of `apiClient.request` (api.ts lines 67-68):
a network error is an error with no response whose code is not
ECONNABORTED; an error is retryable when it is a network error or its
response status is at least 500 or exactly 429. -/
def isRetryable (e : AxError) : Bool :=
  let isNetworkError := e.response.isNone && (e.code != "ECONNABORTED")
  isNetworkError ||
    (match e.response with
     | some r => decide (500 ≤ r.status) || (r.status == 429)
     | none => false)

/-- JavaScript short-circuit `a || b` on strings: the empty string is
falsy. -/
def jsOr (a b : String) : String := if a = "" then b else a

/-- The normalized error message built after the loop (api.ts lines 84-88):
`errorData?.message || errorData?.error || axiosError.message ||
'API request failed'`. -/
def formatErrorMessage (e : AxError) : String :=
  jsOr (match e.response with | some r => r.dataMessage | none => "")
    (jsOr (match e.response with | some r => r.dataError | none => "")
      (jsOr e.message "API request failed"))

deriving instance DecidableEq for Except

/-- What a full run of `apiClient.request` produced: the returned body or
the (normalized) thrown error message, how many attempts were made, and the
list of delays waited between attempts. -/
structure RunResult where
  outcome : Except String String
  attemptsMade : Nat
  delays : List Nat
deriving DecidableEq, Repr

/-- The retry loop of `apiClient.request` (api.ts lines 45-97), from the
iteration with counter `retries` on.  `att n` is the outcome of the attempt
made in the iteration with counter `n`.  On success the response body is
returned; on a thrown error the loop breaks — and the error message is
normalized and re-thrown — when the retry budget is exhausted or the error
is not retryable, and otherwise waits `RETRY_DELAY * (retries + 1)` and
continues with `retries + 1`. -/
def requestAux (att : Nat → Attempt) (retries : Nat) : RunResult :=
  match att retries with
  | Attempt.ok body =>
    { outcome := Except.ok body, attemptsMade := retries + 1, delays := [] }
  | Attempt.err e =>
    if h : MAX_RETRIES ≤ retries ∨ isRetryable e = false then
      { outcome := Except.error (formatErrorMessage e),
        attemptsMade := retries + 1, delays := [] }
    else
      let r := requestAux att (retries + 1)
      { outcome := r.outcome, attemptsMade := r.attemptsMade,
        delays := apiRetryDelay retries :: r.delays }
termination_by MAX_RETRIES - retries
decreasing_by
  rcases not_or.mp h with ⟨h1, _⟩
  omega

/-- `apiClient.request` (api.ts lines 35-97): run the retry loop from
`retries = 0`. -/
def request (att : Nat → Attempt) : RunResult := requestAux att 0

/-- Outcome of one health probe issued by `apiClient.isBackendAvailable`
(api.ts lines 103-116): a 2xx response, a non-2xx response (axios rejects
it under the default status validation), a timeout of the 3000 ms bound, or
a network error. -/
inductive ProbeResult where
  | ok2xx
  | non2xx
  | timeoutErr
  | netErr
deriving DecidableEq, Repr

/-- `apiClient.isBackendAvailable` (api.ts lines 103-116): returns true on
a 2xx probe response and false otherwise; every failure is caught inside
the function, so it never throws. -/
def apiIsBackendAvailable : ProbeResult → Bool
  | ProbeResult.ok2xx => true
  | _ => false

/-- The monitor state kept by `BackendProvider` (BackendContext.tsx lines
46-51). -/
structure BackendState where
  isBackendAvailable : Bool
  isChecking : Bool
  lastChecked : Option Nat
  error : Option String
  failureCount : Nat
  retryTimeout : Nat
deriving DecidableEq, Repr

/-- The initial monitor state (BackendContext.tsx lines 46-51):
pessimistic default, first check in flight, poll interval at the base
`checkInterval`. -/
def initialBackendState (checkInterval : Nat) : BackendState :=
  { isBackendAvailable := false, isChecking := true, lastChecked := none,
    error := none, failureCount := 0, retryTimeout := checkInterval }

/-- The state update performed by one run of `checkBackend`
(BackendContext.tsx lines 53-79).  `probeCall` is the outcome of the
awaited `apiClient.isBackendAvailable()` call: `Except.ok available` when
it resolves, `Except.error msg` when it rejects.  On a resolved call the
try branch stores the availability flag, records the check time, clears the
error, and resets `failureCount` and `retryTimeout`; on a rejected call the
catch branch increments `failureCount` and widens `retryTimeout`
exponentially with a 300000 ms cap. -/
def checkBackend (checkInterval : Nat) (st : BackendState) (now : Nat)
    (probeCall : Except String Bool) : BackendState :=
  match probeCall with
  | Except.ok available =>
    { st with isBackendAvailable := available, lastChecked := some now,
              error := none, failureCount := 0, retryTimeout := checkInterval,
              isChecking := false }
  | Except.error msg =>
    let nextFailure := st.failureCount + 1
    { st with isBackendAvailable := false, error := some msg,
              failureCount := nextFailure,
              retryTimeout := backendRetryTimeout checkInterval nextFailure,
              isChecking := false }

/-- One full monitor step: `checkBackend` applied to the outcome of the
probe.  `apiClient.isBackendAvailable` catches every probe failure and
resolves with a boolean, so the awaited call always resolves and
`checkBackend` always receives `Except.ok`. -/
def monitorStep (checkInterval : Nat) (st : BackendState) (now : Nat)
    (pr : ProbeResult) : BackendState :=
  checkBackend checkInterval st now (Except.ok (apiIsBackendAvailable pr))

/-! Concrete fixtures used by witness and counterexample theorems. -/

/-- A store client every operation of which throws (models an unreachable
shared store). -/
def throwingRedisClient : RedisClient Unit where
  incr := fun st _ => (Except.error "connection refused", st)
  expire := fun st _ _ _ => (Except.error "connection refused", st)
  ttl := fun st _ _ => (Except.error "connection refused", st)

/-- Fallback-store state holding the key of identity 1.2.3.4 at count 10
with an expiration of 60000 ms — a window that ended in the past relative
to the probe time 120000 ms used with it. -/
def staleWindowState : MockRedis :=
  { storage := fun k => if k = rlKey "1.2.3.4" then some 10 else none,
    expirations := fun k => if k = rlKey "1.2.3.4" then some 60000 else none }

/-- Attempt outcomes: server error 500 on attempts 1 and 2, success on
attempt 3. -/
def att500 : Nat → Attempt
  | 0 => Attempt.err { response := some { status := 500, dataMessage := "", dataError := "" },
                       code := "", message := "Request failed with status code 500" }
  | 1 => Attempt.err { response := some { status := 500, dataMessage := "", dataError := "" },
                       code := "", message := "Request failed with status code 500" }
  | _ => Attempt.ok "hello"

/-- Attempt outcomes: client error 400 on every attempt. -/
def att400 : Nat → Attempt := fun _ =>
  Attempt.err { response := some { status := 400, dataMessage := "Bad Request", dataError := "" },
                code := "", message := "Request failed with status code 400" }

/-- Attempt outcomes: a timeout (no response, code ECONNABORTED) on attempt
1, success afterwards. -/
def attTimeout : Nat → Attempt
  | 0 => Attempt.err { response := none, code := "ECONNABORTED",
                       message := "timeout of 10000ms exceeded" }
  | _ => Attempt.ok "x"

/-- Attempt outcomes: a plain network failure with no response (and a code
other than ECONNABORTED) on attempt 1, success afterwards. -/
def attNetErr : Nat → Attempt
  | 0 => Attempt.err { response := none, code := "ECONNREFUSED",
                       message := "Network Error" }
  | _ => Attempt.ok "x"

/-- Attempt outcomes: server error 500 on attempt 1, a no-response network
failure (code ECONNRESET) on attempt 2 — mid-run, with the retry cap not
yet exhausted — success afterwards. -/
def attNetErrMid : Nat → Attempt
  | 0 => Attempt.err { response := some { status := 500, dataMessage := "", dataError := "" },
                       code := "", message := "Request failed with status code 500" }
  | 1 => Attempt.err { response := none, code := "ECONNRESET",
                       message := "socket hang up" }
  | _ => Attempt.ok "x"

/-! Helper lemmas (shared). -/

/-- The retry loop makes one more attempt than it takes delays, and the
delay taken before the attempt with counter `n` is `apiRetryDelay n`; the
delays of a run starting at `retries` are consecutive values of
`apiRetryDelay` from index `retries` on. -/
theorem requestAux_attempts_delays (att : Nat → Attempt) :
    ∀ r, (requestAux att r).attemptsMade = r + 1 + (requestAux att r).delays.length
      ∧ (requestAux att r).delays
          = (List.range' r (requestAux att r).delays.length).map apiRetryDelay := by
  intro r
  induction r using requestAux.induct att with
  | case1 r body h => rw [requestAux, h]; simp
  | case2 r e h hc => rw [requestAux, h]; simp [hc]
  | case3 r e h hc ih =>
    rw [requestAux, h]
    simp only [dif_neg hc, List.length_cons]
    refine ⟨by omega, ?_⟩
    rw [List.range'_succ, List.map_cons, ← ih.2]

/-- Claim C2 (confirmed): if any store operation that `checkRateLimit`
invokes throws — the `incr`, the `ttl`, or the `expire` performed when the
counter is new (`n = 1`) or carries no TTL (`t = -1`) — the limiter does
not raise and returns the fail-open decision: allowed, with
`remaining = RATE_LIMIT - 1` and a reset one full window past now.
(Not raising is structural: `checkRateLimit` is a total function into
`Decision`.) -/
theorem checkRateLimit_fail_open {σ : Type} (c : RedisClient σ) (st : σ)
    (now : Nat) (id : String) :
    (∀ e st1, c.incr st (rlKey id) = (Except.error e, st1) →
      (checkRateLimit c st now id).1 = failOpenDecision now)
    ∧ (∀ n st1 e st2, c.incr st (rlKey id) = (Except.ok n, st1) →
        c.ttl st1 now (rlKey id) = (Except.error e, st2) →
        (checkRateLimit c st now id).1 = failOpenDecision now)
    ∧ (∀ n st1 t st2 e st3, c.incr st (rlKey id) = (Except.ok n, st1) →
        c.ttl st1 now (rlKey id) = (Except.ok t, st2) →
        (n = 1 ∨ t = -1) →
        c.expire st2 now (rlKey id) RATE_LIMIT_WINDOW_SEC = (Except.error e, st3) →
        (checkRateLimit c st now id).1 = failOpenDecision now)
    ∧ (failOpenDecision now).allowed = true
    ∧ (failOpenDecision now).remaining = (RATE_LIMIT : Int) - 1
    ∧ (failOpenDecision now).reset
        = (((now + 999) / 1000 : Nat) : Int) + (RATE_LIMIT_WINDOW_SEC : Int) := by
  refine ⟨?_, ?_, ?_, rfl, rfl, rfl⟩
  · intro e st1 h
    simp [checkRateLimit, h]
  · intro n st1 e st2 h1 h2
    simp only [checkRateLimit, h1, h2]
  · intro n st1 t st2 e st3 h1 h2 hne h3
    simp only [checkRateLimit, h1, h2]
    by_cases hn : n = 1
    · simp [hn, h3]
    · have ht : t = -1 := by tauto
      simp [hn, ht, h3]

/-- Witness for C2: with a client whose every operation throws, the call at
time 5000 for identity 1.2.3.4 returns the fail-open decision. -/
theorem checkRateLimit_fail_open_witness :
    (checkRateLimit throwingRedisClient () 5000 "1.2.3.4").1 = failOpenDecision 5000 :=
  (checkRateLimit_fail_open throwingRedisClient () 5000 "1.2.3.4").1
    "connection refused" () rfl

/-- Claim C3 (counterexample): the Resilient Request Executor's inter-retry
delay is not the claimed `min(baseMs * 2 ^ n, maxMs)` formula, and the two
call sites do not compute identical delays: at attempt number 2 with the
executor's own base of 1000 ms, the executor would wait 3000 ms while the
monitor's formula gives `min(1000 * 2 ^ 2, 300000) = 4000` ms. -/
theorem backoff_formulas_differ_cex :
    apiRetryDelay 2 ≠ min (1000 * 2 ^ 2) 300000
    ∧ apiRetryDelay 2 ≠ backendRetryTimeout 1000 2
    ∧ apiRetryDelay 2 = 3000 ∧ backendRetryTimeout 1000 2 = 4000 := by
  decide

/-- Claim C3 (amended): the Availability Monitor's catch branch computes its
poll interval as `min(checkInterval * 2 ^ nextFailure, 300000)`
(exponential, capped), while the Resilient Request Executor waits
`RETRY_DELAY * (retries + 1)` milliseconds before the next attempt (linear,
uncapped): every run of the executor takes exactly the delays
`apiRetryDelay 0, apiRetryDelay 1, ...`, one per retry performed.  The two
schedules agree at attempt numbers 0 and 1 (the only delays reachable with
`MAX_RETRIES = 2`) for the executor's base of 1000 ms, and differ at
attempt number 2. -/
theorem executor_delay_linear_monitor_exponential :
    (∀ att : Nat → Attempt,
      (request att).delays
        = (List.range ((request att).attemptsMade - 1)).map apiRetryDelay)
    ∧ (∀ checkInterval st now msg,
        (checkBackend checkInterval st now (Except.error msg)).retryTimeout
          = backendRetryTimeout checkInterval (st.failureCount + 1))
    ∧ (∀ n, n ≤ 1 → apiRetryDelay n = backendRetryTimeout 1000 n)
    ∧ apiRetryDelay 2 ≠ backendRetryTimeout 1000 2 := by
  refine ⟨?_, fun _ _ _ _ => rfl, ?_, by decide⟩
  · intro att
    have h := requestAux_attempts_delays att 0
    have hlen : (request att).attemptsMade - 1 = (request att).delays.length := by
      have := h.1
      simp only [request] at *
      omega
    rw [hlen, List.range_eq_range']
    exact h.2
  · intro n hn
    interval_cases n <;> decide

/-- Witness for the amended C3: at attempt number 1 the two schedules agree
(2000 ms), and a run of the executor that fails retryably twice and then
succeeds takes exactly the linear delays 1000 ms and 2000 ms. -/
theorem executor_delay_linear_monitor_exponential_witness :
    apiRetryDelay 1 = backendRetryTimeout 1000 1
    ∧ (request att500).delays
        = (List.range ((request att500).attemptsMade - 1)).map apiRetryDelay :=
  ⟨executor_delay_linear_monitor_exponential.2.2.1 1 (by decide),
   executor_delay_linear_monitor_exponential.1 att500⟩

/-- Claim C4 (code bug): `apiClient.isBackendAvailable` catches every probe
failure internally and resolves with `false`, so a failed probe (non-2xx,
timeout, or network error) runs the try branch of `checkBackend`, which
RESETS `failureCount` to 0 and `retryTimeout` to the base `checkInterval`;
the exponential-backoff catch branch is unreachable from a probe failure.
This theorem records the divergent behavior: after any failed probe the
failure count is 0 — not k — and the poll interval is the base — not
`min(base * 2 ^ k, cap)`. -/
theorem monitorStep_failure_resets_state (checkInterval : Nat)
    (st : BackendState) (now : Nat) :
    ((monitorStep checkInterval st now ProbeResult.non2xx).failureCount = 0
      ∧ (monitorStep checkInterval st now ProbeResult.non2xx).retryTimeout = checkInterval
      ∧ (monitorStep checkInterval st now ProbeResult.non2xx).isBackendAvailable = false)
    ∧ ((monitorStep checkInterval st now ProbeResult.timeoutErr).failureCount = 0
      ∧ (monitorStep checkInterval st now ProbeResult.timeoutErr).retryTimeout = checkInterval)
    ∧ ((monitorStep checkInterval st now ProbeResult.netErr).failureCount = 0
      ∧ (monitorStep checkInterval st now ProbeResult.netErr).retryTimeout = checkInterval)
    ∧ ((monitorStep checkInterval st now ProbeResult.ok2xx).failureCount = 0
      ∧ (monitorStep checkInterval st now ProbeResult.ok2xx).retryTimeout = checkInterval
      ∧ (monitorStep checkInterval st now ProbeResult.ok2xx).isBackendAvailable = true) :=
  ⟨⟨rfl, rfl, rfl⟩, ⟨rfl, rfl⟩, ⟨rfl, rfl⟩, rfl, rfl, rfl⟩

/-- Claim C5 (counterexample): an attempt that times out — a network-level
failure with no response, carrying the axios code ECONNABORTED — is NOT
retried even though the retry cap is untouched: the executor makes exactly
one attempt, waits no delay, and surfaces the timeout message, although a
second attempt would have succeeded. -/
theorem timeout_not_retried_cex :
    (request attTimeout).attemptsMade = 1
    ∧ (request attTimeout).delays = []
    ∧ (request attTimeout).outcome = Except.error "timeout of 10000ms exceeded" := by
  refine ⟨?_, ?_, ?_⟩ <;>
    simp [request, requestAux, attTimeout, isRetryable, formatErrorMessage, jsOr]

/-- Claim C5 (amended): at any point of a run — the loop iteration with
counter `r`, whose attempt is the `(r+1)`-th — an attempt that fails at the
network level with no response is treated as transient and retried as long
as the retry cap is not exhausted (`r < MAX_RETRIES`): the loop waits
`apiRetryDelay r` and continues with the next attempt, so at least `r + 2`
attempts are made in total — unless the error's code is ECONNABORTED (an
axios timeout), in which case the executor makes no further attempt at any
counter, takes no delay, and surfaces the normalized failure immediately. -/
theorem network_error_retried_timeout_not (att : Nat → Attempt) (r : Nat)
    (e : AxError) (hr : att r = Attempt.err e) (hnr : e.response = none) :
    (e.code ≠ "ECONNABORTED" → r < MAX_RETRIES →
      (requestAux att r).outcome = (requestAux att (r + 1)).outcome
      ∧ (requestAux att r).attemptsMade = (requestAux att (r + 1)).attemptsMade
      ∧ r + 2 ≤ (requestAux att r).attemptsMade
      ∧ (requestAux att r).delays = apiRetryDelay r :: (requestAux att (r + 1)).delays)
    ∧ (e.code = "ECONNABORTED" →
      (requestAux att r).attemptsMade = r + 1
      ∧ (requestAux att r).delays = []
      ∧ (requestAux att r).outcome = Except.error (formatErrorMessage e)) := by
  constructor
  · intro hc hcap
    have hret : isRetryable e = true := by simp [isRetryable, hnr, hc]
    have hcond : ¬ (MAX_RETRIES ≤ r ∨ isRetryable e = false) := by
      simp [hret]
      omega
    have hunf : requestAux att r =
        { outcome := (requestAux att (r + 1)).outcome,
          attemptsMade := (requestAux att (r + 1)).attemptsMade,
          delays := apiRetryDelay r :: (requestAux att (r + 1)).delays } := by
      rw [requestAux, hr]
      simp only [dif_neg hcond]
    rw [hunf]
    refine ⟨rfl, rfl, ?_, rfl⟩
    show r + 2 ≤ (requestAux att (r + 1)).attemptsMade
    have := (requestAux_attempts_delays att (r + 1)).1
    omega
  · intro hc
    have hret : isRetryable e = false := by simp [isRetryable, hnr, hc]
    have hcond : MAX_RETRIES ≤ r ∨ isRetryable e = false := Or.inr hret
    have hunf : requestAux att r =
        { outcome := Except.error (formatErrorMessage e),
          attemptsMade := r + 1, delays := [] } := by
      rw [requestAux, hr]
      simp only [dif_pos hcond]
    rw [hunf]
    exact ⟨rfl, rfl, rfl⟩

/-- Witness for the amended C5: a no-response ECONNRESET failure at the
mid-run counter 1 (second attempt, cap 2 not exhausted) is retried — the
run from counter 1 waits `apiRetryDelay 1` and reaches a third attempt. -/
theorem network_error_retried_timeout_not_witness :
    3 ≤ (requestAux attNetErrMid 1).attemptsMade
    ∧ (requestAux attNetErrMid 1).delays
        = apiRetryDelay 1 :: (requestAux attNetErrMid 2).delays := by
  have h := (network_error_retried_timeout_not attNetErrMid 1
      { response := none, code := "ECONNRESET", message := "socket hang up" }
      rfl rfl).1 (by decide) (by decide)
  exact ⟨h.2.2.1, h.2.2.2⟩

/-- Claim C6 (code bug): under the in-process fallback store, a call after
the window has fully expired does NOT start a fresh window.  With identity
1.2.3.4 at count 10 and an expiration 60 s in the past, the next call at
now = 120 s observes count 11 (the mock incr ignores the expirations map)
and is denied, and the subsequent ttl deletes the key, losing the
increment: the observed count is not 1 and the decision is not allowed. -/
theorem expired_window_not_fresh_eval :
    (checkRateLimit mockRedisClient staleWindowState 120000 "1.2.3.4").1.allowed = false
    ∧ (checkRateLimit mockRedisClient staleWindowState 120000 "1.2.3.4").1.remaining = 0
    ∧ (checkRateLimit mockRedisClient staleWindowState 120000 "1.2.3.4").2.storage
        (rlKey "1.2.3.4") = none
    ∧ staleWindowState.storage (rlKey "1.2.3.4") = some 10
    ∧ staleWindowState.expirations (rlKey "1.2.3.4") = some 60000 := by
  refine ⟨rfl, rfl, rfl, rfl, rfl⟩

/-! Lemmas about the fallback store operations and the limiter over it. -/

/-- Keys of distinct identities are distinct: the prefixed key is injective. -/
theorem rlKey_inj {a b : String} (h : rlKey a = rlKey b) : a = b := by
  have hd := congrArg String.data h
  simp only [rlKey, String.data_append] at hd
  exact String.ext (List.append_cancel_left hd)

/-- The mock incr returns the stored value plus one. -/
theorem mockIncr_val (st : MockRedis) (key : String) :
    (mockIncr st key).1 = (st.storage key).getD 0 + 1 := rfl

/-- After the mock incr, the key holds the post-increment value. -/
theorem mockIncr_storage_self (st : MockRedis) (key : String) :
    (mockIncr st key).2.storage key = some ((st.storage key).getD 0 + 1) := by
  simp [mockIncr]

/-- The mock incr leaves every other key's stored value unchanged. -/
theorem mockIncr_storage_frame (st : MockRedis) (key k : String) (hk : k ≠ key) :
    (mockIncr st key).2.storage k = st.storage k := by
  simp [mockIncr, hk]

/-- The mock incr never touches the expirations map. -/
theorem mockIncr_exp (st : MockRedis) (key : String) :
    (mockIncr st key).2.expirations = st.expirations := rfl

/-- The mock expire never touches the storage map. -/
theorem mockExpire_storage (st : MockRedis) (now : Nat) (key : String) (s : Nat) :
    (mockExpire st now key s).2.storage = st.storage := by
  unfold mockExpire
  split_ifs <;> rfl

/-- The mock expire leaves every other key's expiration unchanged. -/
theorem mockExpire_exp_frame (st : MockRedis) (now : Nat) (key : String) (s : Nat)
    (k : String) (hk : k ≠ key) :
    (mockExpire st now key s).2.expirations k = st.expirations k := by
  unfold mockExpire
  split_ifs <;> simp [hk]

/-- The mock ttl leaves every other key's stored value unchanged. -/
theorem mockTtl_storage_frame (st : MockRedis) (now : Nat) (key k : String)
    (hk : k ≠ key) :
    (mockTtl st now key).2.storage k = st.storage k := by
  unfold mockTtl
  rcases st.storage key with _ | c
  · rfl
  · rcases st.expirations key with _ | E
    · rfl
    · simp only []
      split_ifs <;> simp [hk]

/-- The mock ttl leaves every other key's expiration unchanged. -/
theorem mockTtl_exp_frame (st : MockRedis) (now : Nat) (key k : String)
    (hk : k ≠ key) :
    (mockTtl st now key).2.expirations k = st.expirations k := by
  unfold mockTtl
  rcases st.storage key with _ | c
  · rfl
  · rcases st.expirations key with _ | E
    · rfl
    · simp only []
      split_ifs <;> simp [hk]

/-- The value the mock ttl reports depends only on the queried key's entry
in each map. -/
theorem mockTtl_val_congr (st st' : MockRedis) (now : Nat) (k : String)
    (h1 : st.storage k = st'.storage k)
    (h2 : st.expirations k = st'.expirations k) :
    (mockTtl st now k).1 = (mockTtl st' now k).1 := by
  unfold mockTtl
  rw [h1, h2]
  rcases st'.storage k with _ | c
  · rfl
  · rcases st'.expirations k with _ | E
    · rfl
    · simp only []
      split_ifs <;> rfl

/-- A first call for an identity whose key is absent: the counter becomes 1,
the expire branch records a full window, and the decision is built from
count 1 and a TTL of one window. -/
theorem mock_first_call (st : MockRedis) (now : Nat) (id : String)
    (hs : st.storage (rlKey id) = none) (he : st.expirations (rlKey id) = none) :
    (checkRateLimit mockRedisClient st now id).1
      = mkDecision 1 (RATE_LIMIT_WINDOW_SEC : Int) now
    ∧ (checkRateLimit mockRedisClient st now id).2.storage (rlKey id) = some 1
    ∧ (checkRateLimit mockRedisClient st now id).2.expirations (rlKey id)
        = some (now + RATE_LIMIT_WINDOW_SEC * 1000) := by
  simp [checkRateLimit, mockRedisClient, mockIncr, mockTtl, mockExpire, hs, he]

/-- A subsequent call inside a live window (stored count at least 1,
expiration in the future): the counter increments, the expiration is kept,
and the decision is built from the incremented count and the remaining
TTL. -/
theorem mock_next_call (st : MockRedis) (now : Nat) (id : String) (c E : Nat)
    (hs : st.storage (rlKey id) = some c) (hc : 1 ≤ c)
    (he : st.expirations (rlKey id) = some E) (hE0 : 0 < E) (hnow : now < E) :
    (checkRateLimit mockRedisClient st now id).1
      = mkDecision (c + 1) (((E - now + 999) / 1000 : Nat) : Int) now
    ∧ (checkRateLimit mockRedisClient st now id).2.storage (rlKey id) = some (c + 1)
    ∧ (checkRateLimit mockRedisClient st now id).2.expirations (rlKey id) = some E := by
  have hne1 : c + 1 ≠ 1 := by omega
  have hEne : E ≠ 0 := by omega
  have hnle : ¬ E ≤ now := by omega
  have httl : (((E - now : Nat) : Int) + 999) / 1000 ≠ -1 := by omega
  simp [checkRateLimit, mockRedisClient, mockIncr, mockTtl, mockExpire, hs, he,
        hne1, hEne, hnle, httl]

/-- State invariant of a call sequence for one identity inside one window:
after `k ≥ 1` calls the key holds count `k` and the expiration recorded by
the first call. -/
theorem runCalls_inv (id : String) (ts : Nat → Nat) :
    ∀ k, 1 ≤ k → (∀ j, j < k → ts j < ts 0 + RATE_LIMIT_WINDOW_SEC * 1000) →
      (runCalls id ts k).storage (rlKey id) = some k
      ∧ (runCalls id ts k).expirations (rlKey id)
          = some (ts 0 + RATE_LIMIT_WINDOW_SEC * 1000) := by
  intro k
  induction k with
  | zero => intro h; exact absurd h (by omega)
  | succ k ih =>
    intro _ hw
    by_cases hk : k = 0
    · subst hk
      have h := mock_first_call emptyMockRedis (ts 0) id rfl rfl
      exact ⟨h.2.1, h.2.2⟩
    · have hk1 : 1 ≤ k := by omega
      have hinv := ih hk1 (fun j hj => hw j (by omega))
      have hstep := mock_next_call (runCalls id ts k) (ts k) id k
        (ts 0 + RATE_LIMIT_WINDOW_SEC * 1000) hinv.1 hk1 hinv.2
        (by unfold RATE_LIMIT_WINDOW_SEC; omega) (hw k (by omega))
      exact ⟨hstep.2.1, hstep.2.2⟩

/-- The decision fields as functions of the post-increment count: allowed
exactly when the count is within the limit, and remaining is the clipped
difference. -/
theorem mkDecision_allowed_remaining (n : Nat) (t : Int) (now : Nat) :
    (mkDecision n t now).allowed = decide (n ≤ RATE_LIMIT)
    ∧ (mkDecision n t now).remaining = max 0 ((RATE_LIMIT : Int) - (n : Int)) := by
  unfold mkDecision
  by_cases h : n > RATE_LIMIT
  · rw [if_pos h]
    constructor
    · simp; omega
    · have : (RATE_LIMIT : Int) - (n : Int) ≤ 0 := by
        simp only [RATE_LIMIT] at *; omega
      simp [max_eq_left this]
  · rw [if_neg h]
    constructor
    · simp; omega
    · have : (0 : Int) ≤ (RATE_LIMIT : Int) - (n : Int) := by
        simp only [RATE_LIMIT] at *; omega
      simp [max_eq_right this]

/-- Claim C1 (confirmed): for every identity and every call sequence inside
one fixed window (each call time strictly before the first call time plus
the window), the `(k+1)`-th call — whose post-increment count is
`n = k + 1` — returns `allowed = (n ≤ RATE_LIMIT)` and
`remaining = max 0 (RATE_LIMIT - n)`.  In particular the first
`RATE_LIMIT` calls are allowed with remaining decreasing 9, 8, ..., 0, and
the `(RATE_LIMIT+1)`-th call is denied with remaining 0. -/
theorem checkRateLimit_window_decision (id : String) (ts : Nat → Nat) (k : Nat)
    (hw : ∀ j, j ≤ k → ts j < ts 0 + RATE_LIMIT_WINDOW_SEC * 1000) :
    (nthDecision id ts k).allowed = decide (k + 1 ≤ RATE_LIMIT)
    ∧ (nthDecision id ts k).remaining = max 0 ((RATE_LIMIT : Int) - (k + 1 : Nat)) := by
  by_cases hk : k = 0
  · subst hk
    have h := mock_first_call emptyMockRedis (ts 0) id rfl rfl
    have hd : nthDecision id ts 0 = mkDecision 1 (RATE_LIMIT_WINDOW_SEC : Int) (ts 0) := h.1
    rw [hd]
    exact mkDecision_allowed_remaining 1 _ (ts 0)
  · have hk1 : 1 ≤ k := by omega
    have hinv := runCalls_inv id ts k hk1 (fun j hj => hw j (by omega))
    have hstep := mock_next_call (runCalls id ts k) (ts k) id k
      (ts 0 + RATE_LIMIT_WINDOW_SEC * 1000) hinv.1 hk1 hinv.2
      (by unfold RATE_LIMIT_WINDOW_SEC; omega) (hw k (by omega))
    have hd : nthDecision id ts k
        = mkDecision (k + 1)
            ((((ts 0 + RATE_LIMIT_WINDOW_SEC * 1000 - ts k) + 999) / 1000 : Nat) : Int)
            (ts k) := hstep.1
    rw [hd]
    exact mkDecision_allowed_remaining (k + 1) _ (ts k)

/-- Witness for C1: eleven instantaneous calls for identity 1.2.3.4 — the
eleventh call (post-increment count 11) is denied with remaining 0. -/
theorem checkRateLimit_window_decision_witness :
    (nthDecision "1.2.3.4" (fun _ => 0) 10).allowed = false
    ∧ (nthDecision "1.2.3.4" (fun _ => 0) 10).remaining = 0 := by
  have h := checkRateLimit_window_decision "1.2.3.4" (fun _ => 0) 10
    (by intro j hj; simp [RATE_LIMIT_WINDOW_SEC])
  refine ⟨?_, ?_⟩
  · rw [h.1]; decide
  · rw [h.2]; decide

/-- Every run of `checkRateLimit` over the fallback store leaves every key
other than the caller's own untouched, in both maps. -/
theorem checkRateLimit_mock_frame (st : MockRedis) (now : Nat) (id : String)
    (k : String) (hk : k ≠ rlKey id) :
    (checkRateLimit mockRedisClient st now id).2.storage k = st.storage k
    ∧ (checkRateLimit mockRedisClient st now id).2.expirations k = st.expirations k := by
  simp only [checkRateLimit, mockRedisClient]
  split_ifs <;>
    constructor <;>
    simp [mockExpire_storage, mockExpire_exp_frame, mockTtl_storage_frame,
          mockTtl_exp_frame, mockIncr_storage_frame, mockIncr_exp, hk]

/-- The decision of a `checkRateLimit` call over the fallback store depends
only on the caller's own key in both maps. -/
theorem checkRateLimit_mock_congr (st st' : MockRedis) (now : Nat) (id : String)
    (h1 : st.storage (rlKey id) = st'.storage (rlKey id))
    (h2 : st.expirations (rlKey id) = st'.expirations (rlKey id)) :
    (checkRateLimit mockRedisClient st now id).1
      = (checkRateLimit mockRedisClient st' now id).1 := by
  have hv : (mockIncr st (rlKey id)).1 = (mockIncr st' (rlKey id)).1 := by
    rw [mockIncr_val, mockIncr_val, h1]
  have httl : (mockTtl (mockIncr st (rlKey id)).2 now (rlKey id)).1
      = (mockTtl (mockIncr st' (rlKey id)).2 now (rlKey id)).1 :=
    mockTtl_val_congr _ _ now _
      (by rw [mockIncr_storage_self, mockIncr_storage_self, h1])
      (by rw [mockIncr_exp, mockIncr_exp, h2])
  simp only [checkRateLimit, mockRedisClient]
  rw [hv, httl]
  split_ifs <;> rfl

/-- Claim C8 (confirmed): a `checkRateLimit` call for identity `a` never
changes the stored count, the expiration, the reported TTL, or the
resulting decision observed for a distinct identity `b` — each identity's
counter state is confined to its own key. -/
theorem checkRateLimit_identity_isolation (a b : String) (hab : a ≠ b)
    (st : MockRedis) (now now2 : Nat) :
    (checkRateLimit mockRedisClient st now a).2.storage (rlKey b) = st.storage (rlKey b)
    ∧ (checkRateLimit mockRedisClient st now a).2.expirations (rlKey b)
        = st.expirations (rlKey b)
    ∧ (mockTtl ((checkRateLimit mockRedisClient st now a).2) now2 (rlKey b)).1
        = (mockTtl st now2 (rlKey b)).1
    ∧ (checkRateLimit mockRedisClient ((checkRateLimit mockRedisClient st now a).2) now2 b).1
        = (checkRateLimit mockRedisClient st now2 b).1 := by
  have hkey : rlKey b ≠ rlKey a := fun h => hab (rlKey_inj h).symm
  have hf := checkRateLimit_mock_frame st now a (rlKey b) hkey
  exact ⟨hf.1, hf.2,
    mockTtl_val_congr _ _ now2 _ hf.1 hf.2,
    checkRateLimit_mock_congr _ _ now2 b hf.1 hf.2⟩

/-- Witness for C8: a call for identity a from the empty store leaves the
key of identity b absent and does not change the decision a later call for
b returns. -/
theorem checkRateLimit_identity_isolation_witness :
    (checkRateLimit mockRedisClient emptyMockRedis 0 "a").2.storage (rlKey "b")
      = emptyMockRedis.storage (rlKey "b")
    ∧ (checkRateLimit mockRedisClient
          ((checkRateLimit mockRedisClient emptyMockRedis 0 "a").2) 0 "b").1
      = (checkRateLimit mockRedisClient emptyMockRedis 0 "b").1 := by
  have h := checkRateLimit_identity_isolation "a" "b" (by decide) emptyMockRedis 0 0
  exact ⟨h.1, h.2.2.2⟩

/-- Claim C9 (confirmed): the mock incr has no suspension point in its
body, so on the event loop each call executes as one atomic step and any
concurrent execution of `k` increment calls on the same key is a serial run
of `k` increments.  Such a run starting from stored count `c` yields the
pairwise-distinct post-increment values `c+1, ..., c+k` — every call
observes a distinct post-increment count, no two calls act on the same
stale pre-increment count, and no update is lost: the key ends at
`c + k`. -/
theorem runIncrs_serial (key : String) :
    ∀ (k : Nat) (st : MockRedis) (c : Nat), (st.storage key).getD 0 = c →
      (runIncrs st key k).1 = List.range' (c + 1) k
      ∧ (runIncrs st key k).1.Nodup
      ∧ (runIncrs st key k).2.storage key
          = if k = 0 then st.storage key else some (c + k) := by
  intro k
  induction k with
  | zero => intro st c hs; exact ⟨rfl, List.nodup_nil, by simp [runIncrs]⟩
  | succ k ih =>
    intro st c hs
    have hv : (mockIncr st key).1 = c + 1 := by rw [mockIncr_val, hs]
    have hst1 : ((mockIncr st key).2.storage key).getD 0 = c + 1 := by
      rw [mockIncr_storage_self, hs]; rfl
    have hrec := ih (mockIncr st key).2 (c + 1) hst1
    have hl : (runIncrs st key (k + 1)).1
        = (mockIncr st key).1 :: (runIncrs (mockIncr st key).2 key k).1 := rfl
    have hs2 : (runIncrs st key (k + 1)).2
        = (runIncrs (mockIncr st key).2 key k).2 := rfl
    refine ⟨?_, ?_, ?_⟩
    · rw [hl, hv, hrec.1, List.range'_succ]
    · rw [hl, hv, hrec.1]
      have : (c + 1) :: List.range' (c + 1 + 1) k = List.range' (c + 1) (k + 1) :=
        (List.range'_succ _ _ _).symm
      rw [this]
      exact List.nodup_range' _ _ 1 (by decide)
    · rw [hs2]
      by_cases hk : k = 0
      · subst hk
        rw [hrec.2.2]
        simp [mockIncr_storage_self, hs]
      · rw [hrec.2.2]
        simp [hk]
        omega

/-- Witness for C9: three serialized increments on a fresh key return the
distinct values 1, 2, 3 and leave the key at 3. -/
theorem runIncrs_serial_witness :
    (runIncrs emptyMockRedis "counter" 3).1 = [1, 2, 3]
    ∧ (runIncrs emptyMockRedis "counter" 3).1.Nodup
    ∧ (runIncrs emptyMockRedis "counter" 3).2.storage "counter" = some 3 := by
  have h := runIncrs_serial "counter" 3 emptyMockRedis 0 rfl
  refine ⟨?_, h.2.1, ?_⟩
  · rw [h.1]; rfl
  · rw [h.2.2]; rfl

/-- Claim C10 (confirmed): in the fallback store, expiry is enforced lazily
and only by the ttl operation.  For a key whose recorded (positive)
expiration has passed: incr still returns the stale stored count plus 1 —
it never consults the expirations map — while ttl deletes the key and its
expiration and returns the sentinel -2 for a missing key.  (The positivity
hypothesis reflects that a recorded JavaScript expiration of 0 is falsy and
is treated as no expiration; expirations written by the store's own expire
operation during rate limiting are always positive.) -/
theorem mock_lazy_expiry (st : MockRedis) (key : String) (now : Nat) (c E : Nat)
    (hs : st.storage key = some c) (he : st.expirations key = some E)
    (hE0 : 0 < E) (hp : E ≤ now) :
    (mockIncr st key).1 = c + 1
    ∧ (mockIncr st key).2.storage key = some (c + 1)
    ∧ (mockTtl st now key).1 = -2
    ∧ (mockTtl st now key).2.storage key = none
    ∧ (mockTtl st now key).2.expirations key = none := by
  have hEne : E ≠ 0 := by omega
  refine ⟨by rw [mockIncr_val, hs]; rfl,
          by rw [mockIncr_storage_self, hs]; rfl, ?_, ?_, ?_⟩ <;>
    simp [mockTtl, hs, he, hEne, hp]

/-- Witness for C10: on the stale fixture (count 10, expiration 60000 ms,
now 120000 ms) incr returns 11 while ttl returns -2 and deletes the key. -/
theorem mock_lazy_expiry_witness :
    (mockIncr staleWindowState (rlKey "1.2.3.4")).1 = 11
    ∧ (mockTtl staleWindowState 120000 (rlKey "1.2.3.4")).1 = -2
    ∧ (mockTtl staleWindowState 120000 (rlKey "1.2.3.4")).2.storage (rlKey "1.2.3.4")
        = none := by
  have h := mock_lazy_expiry staleWindowState (rlKey "1.2.3.4") 120000 10 60000
    rfl rfl (by decide) (by decide)
  exact ⟨h.1, h.2.2.1, h.2.2.2.1⟩

/-- Claim C7 (confirmed): with the configured `MAX_RETRIES = 2` (three
attempts), a request whose attempts 1 and 2 return status 500 and whose
attempt 3 succeeds returns the attempt-3 body after exactly three attempts;
a request whose attempt 1 returns a 4xx status other than 429 makes no
further attempts, waits no delay, and surfaces the normalized failure to
the caller. -/
theorem request_retry_scenarios :
    (∀ (att : Nat → Attempt) (e0 e1 : AxError) (r0 r1 : AxResponse) (body : String),
      att 0 = Attempt.err e0 → e0.response = some r0 → r0.status = 500 →
      att 1 = Attempt.err e1 → e1.response = some r1 → r1.status = 500 →
      att 2 = Attempt.ok body →
      (request att).outcome = Except.ok body ∧ (request att).attemptsMade = 3)
    ∧ (∀ (att : Nat → Attempt) (e : AxError) (r : AxResponse),
      att 0 = Attempt.err e → e.response = some r →
      400 ≤ r.status → r.status < 500 → r.status ≠ 429 →
      (request att).attemptsMade = 1
      ∧ (request att).outcome = Except.error (formatErrorMessage e)
      ∧ (request att).delays = []) := by
  constructor
  · intro att e0 e1 r0 r1 body h0 hr0 hs0 h1 hr1 hs1 h2
    have hret0 : isRetryable e0 = true := by simp [isRetryable, hr0, hs0]
    have hret1 : isRetryable e1 = true := by simp [isRetryable, hr1, hs1]
    have hc0 : ¬ (MAX_RETRIES ≤ 0 ∨ isRetryable e0 = false) := by
      simp [MAX_RETRIES, hret0]
    have hc1 : ¬ (MAX_RETRIES ≤ 1 ∨ isRetryable e1 = false) := by
      simp [MAX_RETRIES, hret1]
    have h2' : requestAux att 2
        = { outcome := Except.ok body, attemptsMade := 3, delays := [] } := by
      rw [requestAux, h2]
    have h1' : requestAux att 1
        = { outcome := Except.ok body, attemptsMade := 3,
            delays := [apiRetryDelay 1] } := by
      rw [requestAux, h1]
      simp only [dif_neg hc1, h2']
    have h0' : request att
        = { outcome := Except.ok body, attemptsMade := 3,
            delays := [apiRetryDelay 0, apiRetryDelay 1] } := by
      rw [request, requestAux, h0]
      simp only [dif_neg hc0, h1']
    rw [h0']
    exact ⟨rfl, rfl⟩
  · intro att e r h0 hr hge hlt hne
    have hret : isRetryable e = false := by
      simp [isRetryable, hr]
      omega
    have hc : MAX_RETRIES ≤ 0 ∨ isRetryable e = false := Or.inr hret
    have h0' : request att
        = { outcome := Except.error (formatErrorMessage e),
            attemptsMade := 1, delays := [] } := by
      rw [request, requestAux, h0]
      simp only [dif_pos hc]
    rw [h0']
    exact ⟨rfl, rfl, rfl⟩

/-- Witness for C7: the 500/500/200 fixture returns the body after three
attempts, and the 400 fixture stops after one attempt. -/
theorem request_retry_scenarios_witness :
    (request att500).outcome = Except.ok "hello"
    ∧ (request att500).attemptsMade = 3
    ∧ (request att400).attemptsMade = 1 := by
  have h1 := request_retry_scenarios.1 att500
    { response := some { status := 500, dataMessage := "", dataError := "" },
      code := "", message := "Request failed with status code 500" }
    { response := some { status := 500, dataMessage := "", dataError := "" },
      code := "", message := "Request failed with status code 500" }
    { status := 500, dataMessage := "", dataError := "" }
    { status := 500, dataMessage := "", dataError := "" }
    "hello" rfl rfl rfl rfl rfl rfl rfl
  have h2 := request_retry_scenarios.2 att400
    { response := some { status := 400, dataMessage := "Bad Request", dataError := "" },
      code := "", message := "Request failed with status code 400" }
    { status := 400, dataMessage := "Bad Request", dataError := "" }
    rfl rfl (by decide) (by decide) (by decide)
  exact ⟨h1.1, h1.2, h2.1⟩
